import Mathlib

/-!
Verification of the QR-code-with-logo generator
(`src/qrcodeproject2.py`, function `generate_qr_code_with_logo` and the
`__main__` block).

The script is embedded shallowly.  Images are modelled as a pair of pixel
dimensions together with a total pixel function `Int → Int → RGBA` (PIL
coordinates are machine integers; only in-bounds pixels are meaningful).
The external collaborators — the `qrcode` encoder, PIL's image loader,
the LANCZOS resampler and the file-system writability of the output
path — are abstracted into an environment record `Env`; everything the
script itself does (configuration of the encoder, geometry arithmetic,
the white padding rectangle, the masked paste, the save) is translated
directly from the source.  The function also returns the ordered list of
calls it performed (`Event`), so that statements about effect order (the
fill happening before the paste, the save being the last and only file
write) can be made about the embedding.
-/

set_option autoImplicit false

/-- An RGBA pixel; channels are 8-bit values stored as `Nat`
(PIL `RGBA` mode). -/
structure RGBA where
  r : Nat
  g : Nat
  b : Nat
  a : Nat
deriving DecidableEq

/-- PIL's colour "white" on an RGBA image: fully opaque white. -/
def white : RGBA := ⟨255, 255, 255, 255⟩

/-- PIL's colour "black" on an RGBA image: fully opaque black. -/
def black : RGBA := ⟨0, 0, 0, 255⟩

/-- An in-memory raster image: pixel dimensions plus a total pixel
function (pixels outside `[0,width) × [0,height)` are junk). -/
structure Img where
  width : Nat
  height : Nat
  pix : Int → Int → RGBA

/-- A rectangle in PIL's `[x0, y0, x1, y1]` coordinate form, as passed to
`ImageDraw.rectangle` (source line 69-74).  Coordinates are integers and
may be negative. -/
structure PRect where
  x0 : Int
  y0 : Int
  x1 : Int
  y1 : Int
deriving DecidableEq

/-- A point lies in a PIL rectangle.  `ImageDraw.rectangle` fills both
endpoints inclusively. -/
def PRect.containsPt (rc : PRect) (x y : Int) : Prop :=
  rc.x0 ≤ x ∧ x ≤ rc.x1 ∧ rc.y0 ≤ y ∧ y ≤ rc.y1

/-- PIL resampling filters (the script uses `Image.LANCZOS`,
source line 62). -/
inductive Resample where
  | NEAREST
  | BOX
  | BILINEAR
  | HAMMING
  | BICUBIC
  | LANCZOS
deriving DecidableEq

/-- `qrcode` error-correction levels (`qrcode.constants.ERROR_CORRECT_*`). -/
inductive ECLevel where
  | L
  | M
  | Q
  | H
deriving DecidableEq

/-- The parameters handed to the `qrcode.QRCode` constructor
(source lines 36-41). -/
structure QRConfig where
  version : Nat
  error_correction : ECLevel
  box_size : Nat
  border : Nat
deriving DecidableEq

/-- The configuration the script builds: seed version 1, error correction
fixed to H, caller's box size and border (source lines 36-41). -/
def qrConfig (box_size border : Nat) : QRConfig :=
  { version := 1, error_correction := ECLevel.H,
    box_size := box_size, border := border }

/-- The module matrix produced by the external QR encoder: module count
per side and the dark-module predicate. -/
structure QRMatrix where
  n : Nat
  dark : Nat → Nat → Bool

/-- The external collaborators, abstracted: the `qrcode` encoder
(`add_data` + `make(fit=True)` under a given configuration, which may
fail on an unencodable payload), PIL's `Image.open(...).convert("RGBA")`
(which may fail on an unreadable path), the resampler's pixel function
(`resize` always returns an image of exactly the requested size, so only
the pixels are abstract), and whether a destination path is writable. -/
structure Env where
  encode : QRConfig → String → Except String QRMatrix
  load : String → Except String Img
  resizePix : Img → Nat → Nat → Resample → Int → Int → RGBA
  writable : String → Bool

/-- The observable calls/effects the script performs, in order. -/
inductive Event where
  | encoded (cfg : QRConfig) (data : String)
  | loaded (path : String)
  | resized (target : Nat × Nat) (filter : Resample)
  | filledRect (rc : PRect) (c : RGBA)
  | pasted (pos : Nat × Nat)
  | saved (filename : String) (img : Img)

/-- PIL's `MULDIV255` rounding helper: `round(x * m / 255)` computed as
`(tmp + (tmp >> 8)) >> 8` with `tmp = x*m + 128`. -/
def muldiv255 (x m : Nat) : Nat :=
  (x * m + 128 + (x * m + 128) / 256) / 256

/-- PIL's per-channel `BLEND` of foreground over background under mask
value `m` (0 = keep background, 255 = take foreground). -/
def blendc (m fg bg : Nat) : Nat :=
  muldiv255 bg (255 - m) + muldiv255 fg m

/-- Blend a whole pixel under mask value `m`. -/
def blendPix (fg bg : RGBA) (m : Nat) : RGBA :=
  ⟨blendc m fg.r bg.r, blendc m fg.g bg.g, blendc m fg.b bg.b, blendc m fg.a bg.a⟩

/-- `ImageDraw.rectangle(rc, fill=c)`: every pixel inside `rc`
(both endpoints inclusive) becomes `c` (source lines 77-79). -/
def fillRect (img : Img) (rc : PRect) (c : RGBA) : Img :=
  { img with pix := fun x y =>
      if rc.x0 ≤ x ∧ x ≤ rc.x1 ∧ rc.y0 ≤ y ∧ y ≤ rc.y1 then c
      else img.pix x y }

/-- `base.paste(logo, pos, logo)` (source line 82): inside the pasted
extent every channel is blended with the logo's own alpha as the mask;
outside, the base is untouched. -/
def pasteMask (base logo : Img) (pos : Nat × Nat) : Img :=
  { base with pix := fun x y =>
      if (pos.1 : Int) ≤ x ∧ x < (pos.1 : Int) + logo.width ∧
         (pos.2 : Int) ≤ y ∧ y < (pos.2 : Int) + logo.height then
        blendPix (logo.pix (x - pos.1) (y - pos.2)) (base.pix x y) (logo.pix (x - pos.1) (y - pos.2)).a
      else base.pix x y }

/-- Pixel side length of the rendered QR image:
`(modules + 2*border) * box_size` (the `qrcode` rasterizer's geometry). -/
def rasterSide (n box_size border : Nat) : Nat :=
  (n + 2 * border) * box_size

/-- `qr.make_image(fill_color="black", back_color="white").convert("RGBA")`
(source line 48): a square image; a pixel is black when it falls on a
dark module, white everywhere else (border included). -/
def rasterize (m : QRMatrix) (box_size border : Nat) : Img :=
  { width := rasterSide m.n box_size border
    height := rasterSide m.n box_size border
    pix := fun x y =>
      if 0 ≤ x ∧ x < (rasterSide m.n box_size border : Int) ∧
         0 ≤ y ∧ y < (rasterSide m.n box_size border : Int) ∧
         border ≤ x.toNat / box_size ∧ x.toNat / box_size < border + m.n ∧
         border ≤ y.toNat / box_size ∧ y.toNat / box_size < border + m.n ∧
         m.dark (y.toNat / box_size - border) (x.toNat / box_size - border) = true
      then black else white }

/-- `logo_size = min(width, height) // 8` (source line 59). -/
def logoSizeOf (img : Img) : Nat :=
  min img.width img.height / 8

/-- `logo.resize((logo_size, logo_size), Image.LANCZOS)` (source
line 62): PIL returns an image of exactly the requested size; its pixels
come from the abstract resampler. -/
def resizedLogo (env : Env) (logo0 : Img) (s : Nat) : Img :=
  ⟨s, s, env.resizePix logo0 s s Resample.LANCZOS⟩

/-- `logo_position = ((width - logo.width) // 2, (height - logo.height) // 2)`
(source line 65).  The values are non-negative because the resized logo
is at most an eighth of the raster, so `Nat` floor division agrees with
Python's. -/
def logoPosOf (img logo : Img) : Nat × Nat :=
  ((img.width - logo.width) / 2, (img.height - logo.height) / 2)

/-- `rectangle_position` (source lines 68-74): the logo's bounding box
expanded by `padding = 10` on every side. -/
def paddingRect (p : Nat × Nat) (w h : Nat) : PRect :=
  ⟨(p.1 : Int) - 10, (p.2 : Int) - 10,
   (p.1 : Int) + w + 10, (p.2 : Int) + h + 10⟩

/-- The image produced by the logo branch (source lines 57-82): resize,
centre, fill the padding rectangle white, paste the logo with its own
alpha as mask. -/
def composedImg (env : Env) (img logo0 : Img) : Img :=
  let logo := resizedLogo env logo0 (logoSizeOf img)
  let logo_position := logoPosOf img logo
  let rectangle_position := paddingRect logo_position logo.width logo.height
  pasteMask (fillRect img rectangle_position white) logo logo_position

/-- The calls the logo branch performs after the load, in source order:
resize (line 62), white rectangle fill (line 79), paste (line 82). -/
def logoEvents (env : Env) (img logo0 : Img) : List Event :=
  let logo := resizedLogo env logo0 (logoSizeOf img)
  let logo_position := logoPosOf img logo
  [Event.resized (logoSizeOf img, logoSizeOf img) Resample.LANCZOS,
   Event.filledRect (paddingRect logo_position logo.width logo.height) white,
   Event.pasted logo_position]

/-- The logo branch (source lines 55-82): load the logo (may fail), then
resize, fill and paste. -/
def composeLogo (env : Env) (img : Img) (path : String) :
    List Event × Except String Img :=
  match env.load path with
  | Except.error e => ([Event.loaded path], Except.error e)
  | Except.ok logo0 =>
      (Event.loaded path :: logoEvents env img logo0,
       Except.ok (composedImg env img logo0))

/-- The `if logo_path:` branch (source line 55): Python truthiness, so
`None` and the empty string both skip the logo handling. -/
def afterRaster (env : Env) (img : Img) (logo_path : Option String) :
    List Event × Except String Img :=
  match logo_path with
  | none => ([], Except.ok img)
  | some path => if path = "" then ([], Except.ok img) else composeLogo env img path

/-- The whole function `generate_qr_code_with_logo` (source lines 23-85).
Python's default arguments are `filename="qrCode.png"`, `box_size=10`,
`border=2`, `logo_path=None`; callers of the embedding pass them
explicitly.  Returns the ordered list of performed calls and the
outcome; the save event is emitted only when the output path is
writable. -/
def generate_qr_code_with_logo (env : Env) (data filename : String)
    (box_size border : Nat) (logo_path : Option String) :
    List Event × Except String Unit :=
  match env.encode (qrConfig box_size border) data with
  | Except.error e =>
      ([Event.encoded (qrConfig box_size border) data], Except.error e)
  | Except.ok qrm =>
      match afterRaster env (rasterize qrm box_size border) logo_path with
      | (evs, Except.error e) =>
          (Event.encoded (qrConfig box_size border) data :: evs, Except.error e)
      | (evs, Except.ok final) =>
          if env.writable filename then
            (Event.encoded (qrConfig box_size border) data ::
               (evs ++ [Event.saved filename final]), Except.ok ())
          else
            (Event.encoded (qrConfig box_size border) data :: evs,
             Except.error "cannot write output file")

/-- Python's `.strip('"')` on the logo prompt answer (source line 92):
remove all leading and trailing double-quote characters. -/
def stripQuotes (s : String) : String :=
  String.mk (((s.data.dropWhile fun c => c = '"').reverse.dropWhile
    fun c => c = '"').reverse)

/-- The `__main__` block (source lines 88-94): prompt for the payload and
the (quote-stripped) logo path, then call the function with its default
filename, box size and border. -/
def mainBlock (env : Env) (data logoInput : String) :
    List Event × Except String Unit :=
  generate_qr_code_with_logo env data "qrCode.png" 10 2
    (some (stripQuotes logoInput))

/-- The image carried by the first save event of a trace, if any. -/
def savedImage : List Event → Option Img
  | [] => none
  | Event.saved _ img :: _ => some img
  | _ :: t => savedImage t

/-- Recognize a save event. -/
def isSavedEvent : Event → Bool
  | Event.saved _ _ => true
  | _ => false

/-- Top-left corner of the centred square region of side
`min(W,H)//8 + 20` (the region named in the spec's testable property). -/
def centerRegionStart (img : Img) : Nat × Nat :=
  ((img.width - (min img.width img.height / 8 + 20)) / 2,
   (img.height - (min img.width img.height / 8 + 20)) / 2)

/-- Membership in the centred square region of side `min(W,H)//8 + 20`. -/
def inCenterSquare (img : Img) (x y : Int) : Prop :=
  ((centerRegionStart img).1 : Int) ≤ x ∧
  x < ((centerRegionStart img).1 : Int) + (min img.width img.height / 8 + 20) ∧
  ((centerRegionStart img).2 : Int) ≤ y ∧
  y < ((centerRegionStart img).2 : Int) + (min img.width img.height / 8 + 20)

/-- The pasted logo has a non-transparent pixel at absolute raster
coordinates `(x, y)`: the point falls in the pasted extent and the
corresponding logo pixel has non-zero alpha. -/
def logoCoversAt (logo : Img) (pos : Nat × Nat) (x y : Int) : Prop :=
  (pos.1 : Int) ≤ x ∧ x < (pos.1 : Int) + logo.width ∧
  (pos.2 : Int) ≤ y ∧ y < (pos.2 : Int) + logo.height ∧
  (logo.pix (x - pos.1) (y - pos.2)).a ≠ 0

/-- A sample 21-module matrix (QR version 1) for concrete evaluation. -/
def sampleMatrix : QRMatrix :=
  ⟨21, fun i j => (i + j) % 2 == 0⟩

/-- A sample 200×200 fully opaque logo for concrete evaluation. -/
def sampleLogo : Img :=
  ⟨200, 200, fun _ _ => ⟨12, 34, 56, 255⟩⟩

/-- A sample deterministic environment for concrete evaluation: encoding
always yields `sampleMatrix`, loading always yields `sampleLogo`, the
resampler is constant, every path is writable. -/
def sampleEnv : Env :=
  { encode := fun _ _ => Except.ok sampleMatrix
    load := fun _ => Except.ok sampleLogo
    resizePix := fun _ _ _ _ _ _ => ⟨12, 34, 56, 255⟩
    writable := fun _ => true }

/-- The logo image actually pasted for a given run: the loaded logo
resized to an eighth of the raster's smaller side. -/
def pastedLogo (env : Env) (qrm : QRMatrix) (box_size border : Nat) (logo0 : Img) : Img :=
  resizedLogo env logo0 (logoSizeOf (rasterize qrm box_size border))

/-- The top-left corner at which the logo is pasted for a given run. -/
def pastedLogoPos (env : Env) (qrm : QRMatrix) (box_size border : Nat) (logo0 : Img) :
    Nat × Nat :=
  logoPosOf (rasterize qrm box_size border) (pastedLogo env qrm box_size border logo0)

/-- The padding rectangle drawn for a given run: the pasted logo's
bounding box expanded by 10 on every side. -/
def padRect (env : Env) (qrm : QRMatrix) (box_size border : Nat) (logo0 : Img) : PRect :=
  paddingRect (pastedLogoPos env qrm box_size border logo0)
    (logoSizeOf (rasterize qrm box_size border))
    (logoSizeOf (rasterize qrm box_size border))

/-! ### Basic lemmas about the embedded operations -/

@[simp] theorem fillRect_width (img : Img) (rc : PRect) (c : RGBA) :
    (fillRect img rc c).width = img.width := rfl

@[simp] theorem fillRect_height (img : Img) (rc : PRect) (c : RGBA) :
    (fillRect img rc c).height = img.height := rfl

@[simp] theorem pasteMask_width (base logo : Img) (pos : Nat × Nat) :
    (pasteMask base logo pos).width = base.width := rfl

@[simp] theorem pasteMask_height (base logo : Img) (pos : Nat × Nat) :
    (pasteMask base logo pos).height = base.height := rfl

@[simp] theorem rasterize_width (m : QRMatrix) (box_size border : Nat) :
    (rasterize m box_size border).width = rasterSide m.n box_size border := rfl

@[simp] theorem rasterize_height (m : QRMatrix) (box_size border : Nat) :
    (rasterize m box_size border).height = rasterSide m.n box_size border := rfl

@[simp] theorem resizedLogo_width (env : Env) (logo0 : Img) (s : Nat) :
    (resizedLogo env logo0 s).width = s := rfl

@[simp] theorem resizedLogo_height (env : Env) (logo0 : Img) (s : Nat) :
    (resizedLogo env logo0 s).height = s := rfl

@[simp] theorem composedImg_width (env : Env) (img logo0 : Img) :
    (composedImg env img logo0).width = img.width := rfl

@[simp] theorem composedImg_height (env : Env) (img logo0 : Img) :
    (composedImg env img logo0).height = img.height := rfl

/-- Blending with mask value 0 leaves an opaque white background pixel
untouched (PIL's rounding is exact at the endpoints). -/
theorem blendPix_mask_zero (fg : RGBA) : blendPix fg white 0 = white := by
  simp only [blendPix, blendc, muldiv255, white, RGBA.mk.injEq]
  omega

/-- Blending with mask value 255 replaces the background by the
foreground pixel (channels being 8-bit values). -/
theorem blendPix_mask_full (fg bg : RGBA) (h1 : fg.r ≤ 255) (h2 : fg.g ≤ 255)
    (h3 : fg.b ≤ 255) (h4 : fg.a ≤ 255) : blendPix fg bg 255 = fg := by
  obtain ⟨r, g, b, a⟩ := fg
  simp only [blendPix, blendc, muldiv255, RGBA.mk.injEq] at *
  omega

/-- A pixel inside the filled rectangle takes the fill colour. -/
theorem fillRect_pix_in (img : Img) (rc : PRect) (c : RGBA) (x y : Int)
    (h : rc.x0 ≤ x ∧ x ≤ rc.x1 ∧ rc.y0 ≤ y ∧ y ≤ rc.y1) :
    (fillRect img rc c).pix x y = c := by
  simp only [fillRect]
  exact if_pos h

/-- A pixel outside the pasted extent is unchanged by the paste. -/
theorem pasteMask_pix_out (base logo : Img) (pos : Nat × Nat) (x y : Int)
    (h : ¬((pos.1 : Int) ≤ x ∧ x < (pos.1 : Int) + logo.width ∧
           (pos.2 : Int) ≤ y ∧ y < (pos.2 : Int) + logo.height)) :
    (pasteMask base logo pos).pix x y = base.pix x y := by
  simp only [pasteMask]
  exact if_neg h

/-- A pixel inside the pasted extent is the alpha-masked blend of the
logo pixel over the base pixel. -/
theorem pasteMask_pix_in (base logo : Img) (pos : Nat × Nat) (x y : Int)
    (h : (pos.1 : Int) ≤ x ∧ x < (pos.1 : Int) + logo.width ∧
         (pos.2 : Int) ≤ y ∧ y < (pos.2 : Int) + logo.height) :
    (pasteMask base logo pos).pix x y =
      blendPix (logo.pix (x - pos.1) (y - pos.2)) (base.pix x y) (logo.pix (x - pos.1) (y - pos.2)).a := by
  simp only [pasteMask]
  exact if_pos h

/-- A QR raster of at least 21 modules with positive box size and border
is at least 23 pixels wide. -/
theorem rasterSide_lower (n box_size border : Nat) (hn : 21 ≤ n)
    (hb : 1 ≤ box_size) (hbd : 1 ≤ border) :
    23 ≤ rasterSide n box_size border := by
  have h : 23 * 1 ≤ (n + 2 * border) * box_size :=
    Nat.mul_le_mul (by omega) hb
  simpa [rasterSide] using h

/-! ### Shape of the trace and result in each branch -/

/-- When the encoder rejects the payload, the run stops at once: the only
performed call is the encoding attempt and the error propagates as-is. -/
theorem generate_shape_encode_fail (env : Env) (data filename : String)
    (box_size border : Nat) (logo_path : Option String) (e : String)
    (henc : env.encode (qrConfig box_size border) data = Except.error e) :
    generate_qr_code_with_logo env data filename box_size border logo_path =
      ([Event.encoded (qrConfig box_size border) data], Except.error e) := by
  simp [generate_qr_code_with_logo, henc]

/-- With no logo (absent argument or empty string) and a writable output
path, the run encodes and saves the raster unchanged. -/
theorem generate_shape_nologo (env : Env) (data filename : String)
    (box_size border : Nat) (logo_path : Option String) (qrm : QRMatrix)
    (henc : env.encode (qrConfig box_size border) data = Except.ok qrm)
    (hlp : logo_path = none ∨ logo_path = some "") :
    generate_qr_code_with_logo env data filename box_size border logo_path =
      (Event.encoded (qrConfig box_size border) data ::
         (if env.writable filename then
            [Event.saved filename (rasterize qrm box_size border)] else []),
       if env.writable filename then Except.ok ()
       else Except.error "cannot write output file") := by
  rcases hlp with h | h <;> subst h <;>
    by_cases hw : env.writable filename <;>
      simp [generate_qr_code_with_logo, afterRaster, henc, hw]

/-- When the logo cannot be loaded, the run stops after the load attempt
and the loader's error propagates as-is; nothing is saved. -/
theorem generate_shape_load_fail (env : Env) (data filename path : String)
    (box_size border : Nat) (qrm : QRMatrix) (e : String)
    (henc : env.encode (qrConfig box_size border) data = Except.ok qrm)
    (hload : env.load path = Except.error e) (hpath : path ≠ "") :
    generate_qr_code_with_logo env data filename box_size border (some path) =
      ([Event.encoded (qrConfig box_size border) data, Event.loaded path],
       Except.error e) := by
  simp [generate_qr_code_with_logo, afterRaster, composeLogo, henc, hload, hpath]

/-- With a non-empty logo path whose image loads, the run performs, in
order: encode, load, resize, white rectangle fill, paste, and (when the
output path is writable) the save of the composited image. -/
theorem generate_shape_logo (env : Env) (data filename path : String)
    (box_size border : Nat) (qrm : QRMatrix) (logo0 : Img)
    (henc : env.encode (qrConfig box_size border) data = Except.ok qrm)
    (hload : env.load path = Except.ok logo0) (hpath : path ≠ "") :
    generate_qr_code_with_logo env data filename box_size border (some path) =
      (Event.encoded (qrConfig box_size border) data ::
         ((Event.loaded path :: logoEvents env (rasterize qrm box_size border) logo0) ++
           (if env.writable filename then
              [Event.saved filename
                (composedImg env (rasterize qrm box_size border) logo0)] else [])),
       if env.writable filename then Except.ok ()
       else Except.error "cannot write output file") := by
  by_cases hw : env.writable filename <;>
    simp [generate_qr_code_with_logo, afterRaster, composeLogo, henc, hload, hpath, hw]

/-- Pasting the logo over a white-filled rectangle leaves every pixel of
the rectangle white except where a logo pixel with non-zero alpha lands:
fully transparent logo pixels blend to the background and pixels outside
the pasted extent are untouched. -/
theorem paste_over_fill_white (base logo : Img) (pos : Nat × Nat) (rc : PRect) (x y : Int)
    (hrect : rc.containsPt x y)
    (hnc : ¬ logoCoversAt logo pos x y) :
    (pasteMask (fillRect base rc white) logo pos).pix x y = white := by
  by_cases hin : (pos.1 : Int) ≤ x ∧ x < (pos.1 : Int) + logo.width ∧
      (pos.2 : Int) ≤ y ∧ y < (pos.2 : Int) + logo.height
  · have ha : (logo.pix (x - pos.1) (y - pos.2)).a = 0 := by
      by_contra hne
      exact hnc ⟨hin.1, hin.2.1, hin.2.2.1, hin.2.2.2, hne⟩
    rw [pasteMask_pix_in _ _ _ _ _ hin, fillRect_pix_in _ _ _ _ _ hrect, ha,
      blendPix_mask_zero]
  · rw [pasteMask_pix_out _ _ _ _ _ hin, fillRect_pix_in _ _ _ _ _ hrect]

/-- Whatever the arguments and collaborators, the first performed call is
always the encoding attempt under the script's fixed configuration. -/
theorem generate_head_encoded (env : Env) (data filename : String)
    (box_size border : Nat) (logo_path : Option String) :
    (generate_qr_code_with_logo env data filename box_size border logo_path).1.head? =
      some (Event.encoded (qrConfig box_size border) data) := by
  rcases henc : env.encode (qrConfig box_size border) data with e | qrm
  · rw [generate_shape_encode_fail env data filename box_size border logo_path e henc]
    rfl
  · rcases logo_path with _ | path
    · rw [generate_shape_nologo env data filename box_size border none qrm henc (Or.inl rfl)]
      rfl
    · by_cases hp : path = ""
      · subst hp
        rw [generate_shape_nologo env data filename box_size border (some "") qrm henc
          (Or.inr rfl)]
        rfl
      · rcases hload : env.load path with e | logo0
        · rw [generate_shape_load_fail env data filename path box_size border qrm e
            henc hload hp]
          rfl
        · rw [generate_shape_logo env data filename path box_size border qrm logo0
            henc hload hp]
          rfl

/-- Every save event of a run names the caller's output filename. -/
theorem generate_saved_filename (env : Env) (data filename : String)
    (box_size border : Nat) (logo_path : Option String) (f : String) (img : Img)
    (h : Event.saved f img ∈
      (generate_qr_code_with_logo env data filename box_size border logo_path).1) :
    f = filename := by
  rcases henc : env.encode (qrConfig box_size border) data with e | qrm
  · rw [generate_shape_encode_fail env data filename box_size border logo_path e henc] at h
    simp at h
  · rcases logo_path with _ | path
    · rw [generate_shape_nologo env data filename box_size border none qrm henc
        (Or.inl rfl)] at h
      by_cases hw : env.writable filename <;> simp [hw] at h
      exact h.1
    · by_cases hp : path = ""
      · subst hp
        rw [generate_shape_nologo env data filename box_size border (some "") qrm henc
          (Or.inr rfl)] at h
        by_cases hw : env.writable filename <;> simp [hw] at h
        exact h.1
      · rcases hload : env.load path with e | logo0
        · rw [generate_shape_load_fail env data filename path box_size border qrm e
            henc hload hp] at h
          simp at h
        · rw [generate_shape_logo env data filename path box_size border qrm logo0
            henc hload hp] at h
          by_cases hw : env.writable filename <;> simp [hw, logoEvents] at h
          exact h.1

/-- A save event can only sit at the very end of a run's trace, and only
once: the file write is the last performed effect. -/
theorem generate_save_last (env : Env) (data filename : String)
    (box_size border : Nat) (logo_path : Option String) (f : String) (img : Img)
    (h : Event.saved f img ∈
      (generate_qr_code_with_logo env data filename box_size border logo_path).1) :
    ∃ pre, (generate_qr_code_with_logo env data filename box_size border logo_path).1 =
        pre ++ [Event.saved f img] ∧ Event.saved f img ∉ pre := by
  rcases henc : env.encode (qrConfig box_size border) data with e | qrm
  · rw [generate_shape_encode_fail env data filename box_size border logo_path e henc] at h ⊢
    simp at h
  · rcases logo_path with _ | path
    · rw [generate_shape_nologo env data filename box_size border none qrm henc
        (Or.inl rfl)] at h ⊢
      by_cases hw : env.writable filename
      · simp [hw] at h ⊢
        obtain ⟨hf, hi⟩ := h
        subst hf
        subst hi
        exact ⟨[Event.encoded (qrConfig box_size border) data], by simp, by simp⟩
      · simp [hw] at h
    · by_cases hp : path = ""
      · subst hp
        rw [generate_shape_nologo env data filename box_size border (some "") qrm henc
          (Or.inr rfl)] at h ⊢
        by_cases hw : env.writable filename
        · simp [hw] at h ⊢
          obtain ⟨hf, hi⟩ := h
          subst hf
          subst hi
          exact ⟨[Event.encoded (qrConfig box_size border) data], by simp, by simp⟩
        · simp [hw] at h
      · rcases hload : env.load path with e | logo0
        · rw [generate_shape_load_fail env data filename path box_size border qrm e
            henc hload hp] at h ⊢
          simp at h
        · rw [generate_shape_logo env data filename path box_size border qrm logo0
            henc hload hp] at h ⊢
          by_cases hw : env.writable filename
          · simp [hw, logoEvents] at h ⊢
            obtain ⟨hf, hi⟩ := h
            subst hf
            subst hi
            refine ⟨Event.encoded (qrConfig box_size border) data ::
              Event.loaded path ::
              logoEvents env (rasterize qrm box_size border) logo0, ?_, ?_⟩ <;>
              simp [logoEvents]
          · simp [hw, logoEvents] at h

/-- A run that ends in an error has performed no file write at all. -/
theorem generate_error_no_save (env : Env) (data filename : String)
    (box_size border : Nat) (logo_path : Option String) (e : String)
    (h : (generate_qr_code_with_logo env data filename box_size border logo_path).2 =
      Except.error e) :
    (generate_qr_code_with_logo env data filename box_size border logo_path).1.countP
      isSavedEvent = 0 := by
  rcases henc : env.encode (qrConfig box_size border) data with e' | qrm
  · rw [generate_shape_encode_fail env data filename box_size border logo_path e' henc]
    simp [isSavedEvent]
  · rcases logo_path with _ | path
    · rw [generate_shape_nologo env data filename box_size border none qrm henc
        (Or.inl rfl)] at h ⊢
      by_cases hw : env.writable filename <;> simp [hw, isSavedEvent] at h ⊢
    · by_cases hp : path = ""
      · subst hp
        rw [generate_shape_nologo env data filename box_size border (some "") qrm henc
          (Or.inr rfl)] at h ⊢
        by_cases hw : env.writable filename <;> simp [hw, isSavedEvent] at h ⊢
      · rcases hload : env.load path with e' | logo0
        · rw [generate_shape_load_fail env data filename path box_size border qrm e'
            henc hload hp]
          simp [isSavedEvent]
        · rw [generate_shape_logo env data filename path box_size border qrm logo0
            henc hload hp] at h ⊢
          by_cases hw : env.writable filename <;>
            simp [hw, isSavedEvent, logoEvents] at h ⊢

/-- No run ever performs more than one file write. -/
theorem generate_save_count_le_one (env : Env) (data filename : String)
    (box_size border : Nat) (logo_path : Option String) :
    (generate_qr_code_with_logo env data filename box_size border logo_path).1.countP
      isSavedEvent ≤ 1 := by
  rcases henc : env.encode (qrConfig box_size border) data with e | qrm
  · rw [generate_shape_encode_fail env data filename box_size border logo_path e henc]
    simp [isSavedEvent]
  · rcases logo_path with _ | path
    · rw [generate_shape_nologo env data filename box_size border none qrm henc (Or.inl rfl)]
      by_cases hw : env.writable filename <;> simp [hw, isSavedEvent]
    · by_cases hp : path = ""
      · subst hp
        rw [generate_shape_nologo env data filename box_size border (some "") qrm henc
          (Or.inr rfl)]
        by_cases hw : env.writable filename <;> simp [hw, isSavedEvent]
      · rcases hload : env.load path with e | logo0
        · rw [generate_shape_load_fail env data filename path box_size border qrm e
            henc hload hp]
          simp [isSavedEvent]
        · rw [generate_shape_logo env data filename path box_size border qrm logo0
            henc hload hp]
          by_cases hw : env.writable filename <;> simp [hw, isSavedEvent, logoEvents]

/-! ### The claims -/

/-- C3: with a logo path supplied (and the collaborators succeeding), the
run resizes the loaded logo — whatever its original dimensions, so its
aspect ratio is ignored — to the square target
`(min(W,H)//8, min(W,H)//8)` with the LANCZOS (anti-aliased) filter, and
the logo image actually pasted has exactly those dimensions. -/
theorem c3_logo_resized_to_eighth_with_lanczos (env : Env)
    (data filename path : String) (box_size border : Nat)
    (qrm : QRMatrix) (logo0 : Img)
    (henc : env.encode (qrConfig box_size border) data = Except.ok qrm)
    (hload : env.load path = Except.ok logo0)
    (hpath : path ≠ "") :
    Event.resized
        (min (rasterize qrm box_size border).width (rasterize qrm box_size border).height / 8,
         min (rasterize qrm box_size border).width (rasterize qrm box_size border).height / 8)
        Resample.LANCZOS ∈
      (generate_qr_code_with_logo env data filename box_size border (some path)).1 ∧
    (pastedLogo env qrm box_size border logo0).width =
      min (rasterize qrm box_size border).width (rasterize qrm box_size border).height / 8 ∧
    (pastedLogo env qrm box_size border logo0).height =
      min (rasterize qrm box_size border).width (rasterize qrm box_size border).height / 8 := by
  refine ⟨?_, rfl, rfl⟩
  rw [generate_shape_logo env data filename path box_size border qrm logo0 henc hload hpath]
  simp [logoEvents, logoSizeOf]

/-- Witness for C3 at a concrete environment and arguments. -/
theorem c3_logo_resized_to_eighth_with_lanczos_witness :
    Event.resized
        (min (rasterize sampleMatrix 1 1).width (rasterize sampleMatrix 1 1).height / 8,
         min (rasterize sampleMatrix 1 1).width (rasterize sampleMatrix 1 1).height / 8)
        Resample.LANCZOS ∈
      (generate_qr_code_with_logo sampleEnv "hello" "qrCode.png" 1 1 (some "logo.png")).1 ∧
    (pastedLogo sampleEnv sampleMatrix 1 1 sampleLogo).width =
      min (rasterize sampleMatrix 1 1).width (rasterize sampleMatrix 1 1).height / 8 ∧
    (pastedLogo sampleEnv sampleMatrix 1 1 sampleLogo).height =
      min (rasterize sampleMatrix 1 1).width (rasterize sampleMatrix 1 1).height / 8 :=
  c3_logo_resized_to_eighth_with_lanczos sampleEnv "hello" "qrCode.png" "logo.png" 1 1
    sampleMatrix sampleLogo rfl rfl (by decide)

/-- C4: with a logo path supplied (and the collaborators succeeding), the
resized logo's top-left corner is placed at
`((W - side)//2, (H - side)//2)` in integer floor division, i.e. the
logo is centred on the raster. -/
theorem c4_logo_centred (env : Env) (data filename path : String)
    (box_size border : Nat) (qrm : QRMatrix) (logo0 : Img)
    (henc : env.encode (qrConfig box_size border) data = Except.ok qrm)
    (hload : env.load path = Except.ok logo0)
    (hpath : path ≠ "") :
    Event.pasted
        (((rasterize qrm box_size border).width - logoSizeOf (rasterize qrm box_size border)) / 2,
         ((rasterize qrm box_size border).height - logoSizeOf (rasterize qrm box_size border)) / 2) ∈
      (generate_qr_code_with_logo env data filename box_size border (some path)).1 := by
  rw [generate_shape_logo env data filename path box_size border qrm logo0 henc hload hpath]
  simp [logoEvents, logoPosOf]

/-- Witness for C4 at a concrete environment and arguments. -/
theorem c4_logo_centred_witness :
    Event.pasted
        (((rasterize sampleMatrix 1 1).width - logoSizeOf (rasterize sampleMatrix 1 1)) / 2,
         ((rasterize sampleMatrix 1 1).height - logoSizeOf (rasterize sampleMatrix 1 1)) / 2) ∈
      (generate_qr_code_with_logo sampleEnv "hello" "qrCode.png" 1 1 (some "logo.png")).1 :=
  c4_logo_centred sampleEnv "hello" "qrCode.png" "logo.png" 1 1 sampleMatrix sampleLogo
    rfl rfl (by decide)

/-- C5: with no logo path — the argument absent, or the empty string, as
produced by the CLI prompt after quote-stripping (`mainBlock` passes
`some (stripQuotes input)`, and `stripQuotes input = ""` gives exactly
the hypothesis below) — all logo handling is skipped: the run performs
only the encode and the save, and the saved image is the rasterized QR
code unchanged (in particular no white padding rectangle is drawn). -/
theorem c5_no_logo_saves_raster_unchanged (env : Env) (data filename : String)
    (box_size border : Nat) (logo_path : Option String) (qrm : QRMatrix)
    (henc : env.encode (qrConfig box_size border) data = Except.ok qrm)
    (hw : env.writable filename = true)
    (hlp : logo_path = none ∨ logo_path = some "") :
    generate_qr_code_with_logo env data filename box_size border logo_path =
      ([Event.encoded (qrConfig box_size border) data,
        Event.saved filename (rasterize qrm box_size border)], Except.ok ()) := by
  rw [generate_shape_nologo env data filename box_size border logo_path qrm henc hlp]
  simp [hw]

/-- Witness for C5 at a concrete environment and arguments. -/
theorem c5_no_logo_saves_raster_unchanged_witness :
    generate_qr_code_with_logo sampleEnv "hello" "qrCode.png" 10 2 none =
      ([Event.encoded (qrConfig 10 2) "hello",
        Event.saved "qrCode.png" (rasterize sampleMatrix 10 2)], Except.ok ()) :=
  c5_no_logo_saves_raster_unchanged sampleEnv "hello" "qrCode.png" 10 2 none sampleMatrix
    rfl rfl (Or.inl rfl)

/-- C6: for every call, whatever the arguments and collaborators, the
first performed call configures the QR encoder with error correction
fixed at the highest tier H (and seed version 1), passing the caller's
box size and border through unchanged. -/
theorem c6_encoder_config_fixed_h (env : Env) (data filename : String)
    (box_size border : Nat) (logo_path : Option String) :
    (generate_qr_code_with_logo env data filename box_size border logo_path).1.head? =
      some (Event.encoded (qrConfig box_size border) data) ∧
    (qrConfig box_size border).error_correction = ECLevel.H ∧
    (qrConfig box_size border).version = 1 ∧
    (qrConfig box_size border).box_size = box_size ∧
    (qrConfig box_size border).border = border :=
  ⟨generate_head_encoded env data filename box_size border logo_path, rfl, rfl, rfl, rfl⟩

/-- C8: the compose function is deterministic — two invocations with the
same arguments and extensionally equal (deterministic) collaborators
produce identical traces, and in particular pixel-identical saved
images. -/
theorem c8_deterministic (env1 env2 : Env) (data filename : String)
    (box_size border : Nat) (logo_path : Option String)
    (he : env1.encode = env2.encode) (hl : env1.load = env2.load)
    (hr : env1.resizePix = env2.resizePix) (hw : env1.writable = env2.writable) :
    generate_qr_code_with_logo env1 data filename box_size border logo_path =
      generate_qr_code_with_logo env2 data filename box_size border logo_path := by
  have henv : env1 = env2 := by
    obtain ⟨e1, l1, r1, w1⟩ := env1
    obtain ⟨e2, l2, r2, w2⟩ := env2
    simp only [Env.mk.injEq]
    simp at he hl hr hw
    exact ⟨he, hl, hr, hw⟩
  rw [henv]

/-- Witness for C8 at a concrete environment and arguments. -/
theorem c8_deterministic_witness :
    generate_qr_code_with_logo sampleEnv "hello" "qrCode.png" 10 2 (some "logo.png") =
      generate_qr_code_with_logo sampleEnv "hello" "qrCode.png" 10 2 (some "logo.png") :=
  c8_deterministic sampleEnv sampleEnv "hello" "qrCode.png" 10 2 (some "logo.png")
    rfl rfl rfl rfl

/-- C9: whenever the encoder succeeds (payload within capacity) and an
image is saved, that image is square of side
`(moduleCount + 2*border) * boxSize`, for the module count of the
version the encoder selected. -/
theorem c9_saved_dimensions (env : Env) (data filename : String)
    (box_size border : Nat) (logo_path : Option String) (qrm : QRMatrix) (out : Img)
    (henc : env.encode (qrConfig box_size border) data = Except.ok qrm)
    (hout : savedImage
      (generate_qr_code_with_logo env data filename box_size border logo_path).1 = some out) :
    out.width = (qrm.n + 2 * border) * box_size ∧
    out.height = (qrm.n + 2 * border) * box_size := by
  rcases logo_path with _ | path
  · rw [generate_shape_nologo env data filename box_size border none qrm henc
      (Or.inl rfl)] at hout
    by_cases hwr : env.writable filename
    · simp [savedImage, hwr] at hout
      subst hout
      simp [rasterSide]
    · simp [savedImage, hwr] at hout
  · by_cases hp : path = ""
    · subst hp
      rw [generate_shape_nologo env data filename box_size border (some "") qrm henc
        (Or.inr rfl)] at hout
      by_cases hwr : env.writable filename
      · simp [savedImage, hwr] at hout
        subst hout
        simp [rasterSide]
      · simp [savedImage, hwr] at hout
    · rcases hload : env.load path with e | logo0
      · rw [generate_shape_load_fail env data filename path box_size border qrm e
          henc hload hp] at hout
        simp [savedImage] at hout
      · rw [generate_shape_logo env data filename path box_size border qrm logo0
          henc hload hp] at hout
        by_cases hwr : env.writable filename
        · simp [savedImage, logoEvents, hwr] at hout
          subst hout
          simp [rasterSide]
        · simp [savedImage, logoEvents, hwr] at hout

/-- Witness for C9 at a concrete environment and arguments. -/
theorem c9_saved_dimensions_witness :
    (rasterize sampleMatrix 10 2).width = (sampleMatrix.n + 2 * 2) * 10 ∧
    (rasterize sampleMatrix 10 2).height = (sampleMatrix.n + 2 * 2) * 10 :=
  c9_saved_dimensions sampleEnv "hello" "qrCode.png" 10 2 none sampleMatrix
    (rasterize sampleMatrix 10 2) rfl rfl

/-- C10: an interactive run prompts only for the payload and the logo
path (the latter double-quote-stripped); it always calls the compose
function with the default output filename "qrCode.png", box size 10 and
border 2 — so every save event of such a run names "qrCode.png", and the
encoder is configured with box size 10 and border 2. -/
theorem c10_main_uses_defaults (env : Env) (data logoInput : String) :
    mainBlock env data logoInput =
      generate_qr_code_with_logo env data "qrCode.png" 10 2
        (some (stripQuotes logoInput)) ∧
    (mainBlock env data logoInput).1.head? = some (Event.encoded (qrConfig 10 2) data) ∧
    (∀ f img, Event.saved f img ∈ (mainBlock env data logoInput).1 → f = "qrCode.png") :=
  ⟨rfl, generate_head_encoded env data "qrCode.png" 10 2 (some (stripQuotes logoInput)),
   fun f img h =>
     generate_saved_filename env data "qrCode.png" 10 2 (some (stripQuotes logoInput))
       f img h⟩

/-- Witness for C10 at a concrete environment and arguments. -/
theorem c10_main_uses_defaults_witness :
    mainBlock sampleEnv "hello" "\"logo.png\"" =
      generate_qr_code_with_logo sampleEnv "hello" "qrCode.png" 10 2
        (some (stripQuotes "\"logo.png\"")) ∧
    (mainBlock sampleEnv "hello" "\"logo.png\"").1.head? =
      some (Event.encoded (qrConfig 10 2) "hello") ∧
    (∀ f img, Event.saved f img ∈ (mainBlock sampleEnv "hello" "\"logo.png\"").1 →
      f = "qrCode.png") :=
  c10_main_uses_defaults sampleEnv "hello" "\"logo.png\""

/-- C7: every failure aborts the single operation — a run that ends in an
error has performed no file write at all (so a failure before the final
save never produces an output file) — and the file write, when it
happens, is the very last performed effect and happens at most once. -/
theorem c7_failure_aborts_save_last (env : Env) (data filename : String)
    (box_size border : Nat) (logo_path : Option String) :
    (∀ e, (generate_qr_code_with_logo env data filename box_size border logo_path).2 =
        Except.error e →
      (generate_qr_code_with_logo env data filename box_size border logo_path).1.countP
        isSavedEvent = 0) ∧
    (generate_qr_code_with_logo env data filename box_size border logo_path).1.countP
      isSavedEvent ≤ 1 ∧
    (∀ f img, Event.saved f img ∈
        (generate_qr_code_with_logo env data filename box_size border logo_path).1 →
      ∃ pre, (generate_qr_code_with_logo env data filename box_size border logo_path).1 =
          pre ++ [Event.saved f img] ∧ Event.saved f img ∉ pre) :=
  ⟨fun e he => generate_error_no_save env data filename box_size border logo_path e he,
   generate_save_count_le_one env data filename box_size border logo_path,
   fun f img h => generate_save_last env data filename box_size border logo_path f img h⟩

/-- Witness for C7 at a concrete environment and arguments. -/
theorem c7_failure_aborts_save_last_witness :
    (∀ e, (generate_qr_code_with_logo sampleEnv "hello" "qrCode.png" 10 2 none).2 =
        Except.error e →
      (generate_qr_code_with_logo sampleEnv "hello" "qrCode.png" 10 2 none).1.countP
        isSavedEvent = 0) ∧
    (generate_qr_code_with_logo sampleEnv "hello" "qrCode.png" 10 2 none).1.countP
      isSavedEvent ≤ 1 ∧
    (∀ f img, Event.saved f img ∈
        (generate_qr_code_with_logo sampleEnv "hello" "qrCode.png" 10 2 none).1 →
      ∃ pre, (generate_qr_code_with_logo sampleEnv "hello" "qrCode.png" 10 2 none).1 =
          pre ++ [Event.saved f img] ∧ Event.saved f img ∉ pre) :=
  c7_failure_aborts_save_last sampleEnv "hello" "qrCode.png" 10 2 none

/-- The composited image, written with the run-level names for the
pasted logo, its position and the padding rectangle. -/
theorem composedImg_eq_padded (env : Env) (qrm : QRMatrix) (box_size border : Nat)
    (logo0 : Img) :
    composedImg env (rasterize qrm box_size border) logo0 =
      pasteMask
        (fillRect (rasterize qrm box_size border) (padRect env qrm box_size border logo0)
          white)
        (pastedLogo env qrm box_size border logo0)
        (pastedLogoPos env qrm box_size border logo0) := rfl

/-- C1: with a logo supplied (real QR raster: at least 21 modules,
positive box size and border), every pixel of the saved image's centred
square region of side `min(W,H)//8 + 20` that is not under a
non-transparent pixel of the pasted logo is fully opaque white. -/
theorem c1_centre_region_white_outside_logo (env : Env) (data filename path : String)
    (box_size border : Nat) (qrm : QRMatrix) (logo0 : Img) (out : Img)
    (hn : 21 ≤ qrm.n) (hbs : 1 ≤ box_size) (hbd : 1 ≤ border)
    (henc : env.encode (qrConfig box_size border) data = Except.ok qrm)
    (hload : env.load path = Except.ok logo0)
    (hpath : path ≠ "")
    (hsave : savedImage
      (generate_qr_code_with_logo env data filename box_size border (some path)).1 =
        some out) :
    ∀ x y : Int, inCenterSquare out x y →
      ¬ logoCoversAt (pastedLogo env qrm box_size border logo0)
          (pastedLogoPos env qrm box_size border logo0) x y →
      out.pix x y = white := by
  rw [generate_shape_logo env data filename path box_size border qrm logo0 henc hload
    hpath] at hsave
  by_cases hw : env.writable filename
  · simp [savedImage, logoEvents, hw] at hsave
    subst hsave
    intro x y hreg hnc
    have hW : 23 ≤ rasterSide qrm.n box_size border :=
      rasterSide_lower qrm.n box_size border hn hbs hbd
    simp only [inCenterSquare, centerRegionStart, composedImg_width, composedImg_height,
      rasterize_width, rasterize_height, Nat.min_self] at hreg
    rw [composedImg_eq_padded]
    refine paste_over_fill_white _ _ _ _ x y ?_ hnc
    simp only [padRect, pastedLogoPos, pastedLogo, PRect.containsPt, paddingRect,
      logoPosOf, resizedLogo_width, resizedLogo_height, rasterize_width,
      rasterize_height, logoSizeOf, Nat.min_self]
    omega
  · simp [savedImage, logoEvents, hw] at hsave

/-- Witness for C1 at a concrete environment, arguments and pixel. -/
theorem c1_centre_region_white_outside_logo_witness :
    inCenterSquare (composedImg sampleEnv (rasterize sampleMatrix 1 1) sampleLogo) 0 0 ∧
    ¬ logoCoversAt (pastedLogo sampleEnv sampleMatrix 1 1 sampleLogo)
        (pastedLogoPos sampleEnv sampleMatrix 1 1 sampleLogo) 0 0 ∧
    (composedImg sampleEnv (rasterize sampleMatrix 1 1) sampleLogo).pix 0 0 = white :=
  ⟨by unfold inCenterSquare centerRegionStart; decide,
   by unfold logoCoversAt; decide,
   c1_centre_region_white_outside_logo sampleEnv "hello" "qrCode.png" "logo.png" 1 1
     sampleMatrix sampleLogo (composedImg sampleEnv (rasterize sampleMatrix 1 1) sampleLogo)
     (by decide) (by decide) (by decide) rfl rfl (by decide) rfl 0 0
     (by unfold inCenterSquare centerRegionStart; decide)
     (by unfold logoCoversAt; decide)⟩

/-- C2: with a logo supplied, the run draws — before the logo is pasted,
as the trace order shows — a fully opaque white rectangle equal to the
pasted logo's bounding box expanded by 10 pixels on every side; every
pixel of that rectangle not under a non-transparent logo pixel is white
in the saved image, while fully opaque logo pixels overwrite the fill
(the paste comes after the fill). -/
theorem c2_padding_rect_white_before_paste (env : Env) (data filename path : String)
    (box_size border : Nat) (qrm : QRMatrix) (logo0 : Img) (out : Img)
    (henc : env.encode (qrConfig box_size border) data = Except.ok qrm)
    (hload : env.load path = Except.ok logo0)
    (hpath : path ≠ "")
    (hsave : savedImage
      (generate_qr_code_with_logo env data filename box_size border (some path)).1 =
        some out) :
    (∃ tail, (generate_qr_code_with_logo env data filename box_size border (some path)).1 =
      [Event.encoded (qrConfig box_size border) data,
       Event.loaded path,
       Event.resized (logoSizeOf (rasterize qrm box_size border),
         logoSizeOf (rasterize qrm box_size border)) Resample.LANCZOS,
       Event.filledRect (padRect env qrm box_size border logo0) white,
       Event.pasted (pastedLogoPos env qrm box_size border logo0)] ++ tail) ∧
    (padRect env qrm box_size border logo0 =
      paddingRect (pastedLogoPos env qrm box_size border logo0)
        (pastedLogo env qrm box_size border logo0).width
        (pastedLogo env qrm box_size border logo0).height) ∧
    (∀ x y : Int, (padRect env qrm box_size border logo0).containsPt x y →
      ¬ logoCoversAt (pastedLogo env qrm box_size border logo0)
          (pastedLogoPos env qrm box_size border logo0) x y →
      out.pix x y = white) ∧
    (∀ x y : Int,
      ((pastedLogoPos env qrm box_size border logo0).1 : Int) ≤ x →
      x < ((pastedLogoPos env qrm box_size border logo0).1 : Int) +
        (pastedLogo env qrm box_size border logo0).width →
      ((pastedLogoPos env qrm box_size border logo0).2 : Int) ≤ y →
      y < ((pastedLogoPos env qrm box_size border logo0).2 : Int) +
        (pastedLogo env qrm box_size border logo0).height →
      ((pastedLogo env qrm box_size border logo0).pix
          (x - (pastedLogoPos env qrm box_size border logo0).1)
          (y - (pastedLogoPos env qrm box_size border logo0).2)).a = 255 →
      ((pastedLogo env qrm box_size border logo0).pix
          (x - (pastedLogoPos env qrm box_size border logo0).1)
          (y - (pastedLogoPos env qrm box_size border logo0).2)).r ≤ 255 →
      ((pastedLogo env qrm box_size border logo0).pix
          (x - (pastedLogoPos env qrm box_size border logo0).1)
          (y - (pastedLogoPos env qrm box_size border logo0).2)).g ≤ 255 →
      ((pastedLogo env qrm box_size border logo0).pix
          (x - (pastedLogoPos env qrm box_size border logo0).1)
          (y - (pastedLogoPos env qrm box_size border logo0).2)).b ≤ 255 →
      out.pix x y =
        (pastedLogo env qrm box_size border logo0).pix
          (x - (pastedLogoPos env qrm box_size border logo0).1)
          (y - (pastedLogoPos env qrm box_size border logo0).2)) := by
  rw [generate_shape_logo env data filename path box_size border qrm logo0 henc hload
    hpath] at hsave
  by_cases hw : env.writable filename
  · simp [savedImage, logoEvents, hw] at hsave
    subst hsave
    refine ⟨?_, rfl, ?_, ?_⟩
    · rw [generate_shape_logo env data filename path box_size border qrm logo0 henc hload
        hpath]
      refine ⟨if env.writable filename then
        [Event.saved filename (composedImg env (rasterize qrm box_size border) logo0)]
        else [], ?_⟩
      simp [logoEvents, padRect, pastedLogoPos, pastedLogo]
    · intro x y hrect hnc
      rw [composedImg_eq_padded]
      exact paste_over_fill_white _ _ _ _ x y hrect hnc
    · intro x y h1 h2 h3 h4 ha hr hg hb
      rw [composedImg_eq_padded]
      rw [pasteMask_pix_in _ _ _ x y ⟨h1, h2, h3, h4⟩, ha]
      exact blendPix_mask_full _ _ hr hg hb (le_of_eq ha)
  · simp [savedImage, logoEvents, hw] at hsave

/-- Witness for C2 at a concrete environment and arguments. -/
theorem c2_padding_rect_white_before_paste_witness :
    (∃ tail,
      (generate_qr_code_with_logo sampleEnv "hello" "qrCode.png" 1 1 (some "logo.png")).1 =
      [Event.encoded (qrConfig 1 1) "hello",
       Event.loaded "logo.png",
       Event.resized (logoSizeOf (rasterize sampleMatrix 1 1),
         logoSizeOf (rasterize sampleMatrix 1 1)) Resample.LANCZOS,
       Event.filledRect (padRect sampleEnv sampleMatrix 1 1 sampleLogo) white,
       Event.pasted (pastedLogoPos sampleEnv sampleMatrix 1 1 sampleLogo)] ++ tail) ∧
    (padRect sampleEnv sampleMatrix 1 1 sampleLogo =
      paddingRect (pastedLogoPos sampleEnv sampleMatrix 1 1 sampleLogo)
        (pastedLogo sampleEnv sampleMatrix 1 1 sampleLogo).width
        (pastedLogo sampleEnv sampleMatrix 1 1 sampleLogo).height) ∧
    (∀ x y : Int, (padRect sampleEnv sampleMatrix 1 1 sampleLogo).containsPt x y →
      ¬ logoCoversAt (pastedLogo sampleEnv sampleMatrix 1 1 sampleLogo)
          (pastedLogoPos sampleEnv sampleMatrix 1 1 sampleLogo) x y →
      (composedImg sampleEnv (rasterize sampleMatrix 1 1) sampleLogo).pix x y = white) ∧
    (∀ x y : Int,
      ((pastedLogoPos sampleEnv sampleMatrix 1 1 sampleLogo).1 : Int) ≤ x →
      x < ((pastedLogoPos sampleEnv sampleMatrix 1 1 sampleLogo).1 : Int) +
        (pastedLogo sampleEnv sampleMatrix 1 1 sampleLogo).width →
      ((pastedLogoPos sampleEnv sampleMatrix 1 1 sampleLogo).2 : Int) ≤ y →
      y < ((pastedLogoPos sampleEnv sampleMatrix 1 1 sampleLogo).2 : Int) +
        (pastedLogo sampleEnv sampleMatrix 1 1 sampleLogo).height →
      ((pastedLogo sampleEnv sampleMatrix 1 1 sampleLogo).pix
          (x - (pastedLogoPos sampleEnv sampleMatrix 1 1 sampleLogo).1)
          (y - (pastedLogoPos sampleEnv sampleMatrix 1 1 sampleLogo).2)).a = 255 →
      ((pastedLogo sampleEnv sampleMatrix 1 1 sampleLogo).pix
          (x - (pastedLogoPos sampleEnv sampleMatrix 1 1 sampleLogo).1)
          (y - (pastedLogoPos sampleEnv sampleMatrix 1 1 sampleLogo).2)).r ≤ 255 →
      ((pastedLogo sampleEnv sampleMatrix 1 1 sampleLogo).pix
          (x - (pastedLogoPos sampleEnv sampleMatrix 1 1 sampleLogo).1)
          (y - (pastedLogoPos sampleEnv sampleMatrix 1 1 sampleLogo).2)).g ≤ 255 →
      ((pastedLogo sampleEnv sampleMatrix 1 1 sampleLogo).pix
          (x - (pastedLogoPos sampleEnv sampleMatrix 1 1 sampleLogo).1)
          (y - (pastedLogoPos sampleEnv sampleMatrix 1 1 sampleLogo).2)).b ≤ 255 →
      (composedImg sampleEnv (rasterize sampleMatrix 1 1) sampleLogo).pix x y =
        (pastedLogo sampleEnv sampleMatrix 1 1 sampleLogo).pix
          (x - (pastedLogoPos sampleEnv sampleMatrix 1 1 sampleLogo).1)
          (y - (pastedLogoPos sampleEnv sampleMatrix 1 1 sampleLogo).2)) :=
  c2_padding_rect_white_before_paste sampleEnv "hello" "qrCode.png" "logo.png" 1 1
    sampleMatrix sampleLogo (composedImg sampleEnv (rasterize sampleMatrix 1 1) sampleLogo)
    rfl rfl (by decide) rfl
